import Mathlib

/-!
Shallow embedding of the execution-simulation core of the quant-system
repository (`src/quant_system/backtest` and `src/quant_system/trading`),
over exact rationals (ℚ in place of Python floats).  Every definition is
translated from the Python source; field and function names follow the
source where Lean allows it.  (The source field `max_position_ratio` is
rendered `max_position_pct` and the order status `PARTIAL_FILLED` is
rendered `PART_FILLED`, purely for lexical reasons.)
-/

namespace QS

/-! ## Cost model (`backtest/cost_model.py`) -/

/-- `CostModel` dataclass: commission (floored at a minimum) plus a
stamp duty charged only on sells. -/
structure CostModel where
  commission_rate : ℚ
  min_commission : ℚ
  stamp_duty_rate : ℚ
deriving DecidableEq

/-- `CostModel.calculate_buy_cost`: `max(price*size*commission_rate, min_commission)`. -/
def CostModel.calculate_buy_cost (m : CostModel) (price size : ℚ) : ℚ :=
  max (price * size * m.commission_rate) m.min_commission

/-- `CostModel.calculate_sell_cost`: commission plus stamp duty. -/
def CostModel.calculate_sell_cost (m : CostModel) (price size : ℚ) : ℚ :=
  max (price * size * m.commission_rate) m.min_commission
    + price * size * m.stamp_duty_rate

/-- `CostModel.get_total_cost`: dispatches on the `side` string, raising
`ValueError` (modelled as `Except.error`) on any other side. -/
def CostModel.get_total_cost (m : CostModel) (price size : ℚ) (side : String) :
    Except String ℚ :=
  if side = "BUY" then Except.ok (m.calculate_buy_cost price size)
  else if side = "SELL" then Except.ok (m.calculate_sell_cost price size)
  else Except.error ("Unknown side: " ++ side)

/-- Python default `CostModel()`: 0.03% commission, 5-unit minimum, 0.1% stamp duty. -/
def defaultCostModel : CostModel := ⟨3/10000, 5, 1/1000⟩

/-- `NoCostModel()`. -/
def NoCostModel : CostModel := ⟨0, 0, 0⟩

/-- `LowCostModel()`: 0.01% commission. -/
def LowCostModel : CostModel := ⟨1/10000, 5, 1/1000⟩

/-- `HighCostModel()`: 0.05% commission. -/
def HighCostModel : CostModel := ⟨5/10000, 5, 1/1000⟩

/-- `true` exactly on `Except.error`. -/
def isError : Except String ℚ → Bool
  | Except.error _ => true
  | Except.ok _ => false

/-! ## Risk control (`backtest/risk_control.py`) -/

/-- `RiskControl` dataclass (`max_position_ratio` rendered as
`max_position_pct`). -/
structure RiskControl where
  max_drawdown_limit : ℚ
  max_position_pct : ℚ
  stop_loss_pct : Option ℚ
  take_profit_pct : Option ℚ
  max_daily_loss : Option ℚ
  enabled : Bool
deriving DecidableEq

/-- Python default `RiskControl()`. -/
def defaultRiskControl : RiskControl := ⟨-1/5, 1, none, none, none, true⟩

/-- `NoRiskControl()`: risk checks disabled. -/
def NoRiskControl : RiskControl := ⟨-1, 1, none, none, none, false⟩

/-- `RiskMonitor._calculate_current_drawdown`: `(last - running_peak)/running_peak`
where the running peak at the last index is the maximum of the whole curve. -/
def currentDrawdown (curve : List ℚ) : ℚ :=
  let peak := curve.foldl max (curve.headD 0)
  let lastv := curve.getLastD 0
  (lastv - peak) / peak

/-- `RiskMonitor.check_max_drawdown` (its decision value; the source also
sets the `force_exit_triggered` flag, which the engine state carries). -/
def check_max_drawdown (rc : RiskControl) (curve : List ℚ) : Bool :=
  if !rc.enabled then false
  else if curve.length < 2 then false
  else decide (currentDrawdown curve ≤ rc.max_drawdown_limit)

/-- `RiskMonitor.check_stop_loss`. -/
def check_stop_loss (rc : RiskControl) (entry_price current_price : ℚ) : Bool :=
  if !rc.enabled then false
  else
    match rc.stop_loss_pct with
    | none => false
    | some sl => decide ((current_price - entry_price) / entry_price ≤ sl)

/-- `RiskMonitor.check_take_profit`. -/
def check_take_profit (rc : RiskControl) (entry_price current_price : ℚ) : Bool :=
  if !rc.enabled then false
  else
    match rc.take_profit_pct with
    | none => false
    | some tp => decide (tp ≤ (current_price - entry_price) / entry_price)

/-- `RiskMonitor.get_position_size` (`target_ratio` rendered `target_pct`). -/
def get_position_size (rc : RiskControl) (cash price target_pct : ℚ) : ℚ :=
  if !rc.enabled then cash * target_pct / price
  else cash * min target_pct rc.max_position_pct / price

/-! ## Slippage (`backtest/slippage.py`): the engine only calls
`apply_to_buy`/`apply_to_sell` on a single price, so a model is a pair of
price maps. -/

structure SlippageModel where
  apply_to_buy : ℚ → ℚ
  apply_to_sell : ℚ → ℚ

/-- `NoSlippage()`: identity on both sides. -/
def NoSlippage : SlippageModel := ⟨fun p => p, fun p => p⟩

/-- `FixedSlippage(bps)`: `price*(1 ± bps/10000)`. -/
def FixedSlippage (bps : ℚ) : SlippageModel :=
  ⟨fun p => p * (1 + bps / 10000), fun p => p * (1 - bps / 10000)⟩

/-! ## Signals and trades -/

/-- Directional signal consumed by the engine via `signal.name`; any name
other than `BUY`/`EXIT` is inert, represented by `HOLD`. -/
inductive Signal
  | BUY
  | EXIT
  | HOLD
deriving DecidableEq

/-- `Trade` dataclass (`backtest/trade.py`). -/
structure Trade where
  price : ℚ
  size : ℚ
  cash_after : ℚ
  position_after : ℚ
  type : String
deriving DecidableEq

/-- `BacktestResult` (`backtest/result.py`), the fields the engine produces
(derived metrics omitted). -/
structure BacktestResult where
  initial_cash : ℚ
  final_equity : ℚ
  equity_curve : List ℚ
  trades : List Trade
deriving DecidableEq

/-! ## Historical engine (`backtest/engine.py`) -/

/-- Engine configuration: the three collaborator models. -/
structure EngineParams where
  cost_model : CostModel
  slippage_model : SlippageModel
  risk_control : RiskControl

/-- Mutable state of `BacktestEngine.run`'s loop: `self.cash`,
`self.position`, the local `entry_price`, the monitor's
`force_exit_triggered` flag, and the accumulating curve and trade list. -/
structure EngineState where
  cash : ℚ
  position : ℚ
  entry_price : Option ℚ
  force_exit_triggered : Bool
  equity_curve : List ℚ
  trades : List Trade
deriving DecidableEq

/-- Initial engine state (`__init__`). -/
def initState (initial_cash : ℚ) : EngineState :=
  ⟨initial_cash, 0, none, false, [], []⟩

/-- Shared body of every sell branch of the loop: sell the whole position
at the slippage-adjusted price, set `cash = proceeds - cost` (the prior
cash value is discarded, exactly as in the source), zero the position and
record a trade of the given type. -/
def sellAll (cm : CostModel) (sl : SlippageModel) (s : EngineState) (price : ℚ)
    (ty : String) : EngineState :=
  let actual_price := sl.apply_to_sell price
  let cost := cm.calculate_sell_cost actual_price s.position
  let newCash := s.position * actual_price - cost
  { s with
    cash := newCash
    position := 0
    entry_price := none
    trades := s.trades ++ [⟨actual_price, -s.position, newCash, 0, ty⟩] }

/-- BUY branch of the loop: slippage-adjusted entry, `max_shares` from the
risk monitor, buy cost computed on `max_shares`, then
`actual_shares = (cash - cost) / actual_price` and the whole cash balance
is invested. -/
def buyStep (P : EngineParams) (s : EngineState) (price : ℚ) : EngineState :=
  let actual_price := P.slippage_model.apply_to_buy price
  let max_shares := get_position_size P.risk_control s.cash actual_price 1
  let cost := P.cost_model.calculate_buy_cost actual_price max_shares
  let actual_shares := (s.cash - cost) / actual_price
  { s with
    position := actual_shares
    cash := 0
    entry_price := some actual_price
    trades := s.trades ++ [⟨actual_price, actual_shares, 0, actual_shares, "BUY"⟩] }

/-- Tag chosen for an explicit EXIT: STOP_LOSS / TAKE_PROFIT when the
corresponding check fires on the recorded entry price, else EXIT. -/
def exitTag (rc : RiskControl) (entry : Option ℚ) (price : ℚ) : String :=
  match entry with
  | none => "EXIT"
  | some e =>
    if check_stop_loss rc e price then "STOP_LOSS"
    else if check_take_profit rc e price then "TAKE_PROFIT"
    else "EXIT"

/-- Idle-with-position branch: re-check stop-loss / take-profit each bar. -/
def holdCheck (P : EngineParams) (s : EngineState) (price : ℚ) : EngineState :=
  match s.entry_price with
  | none => s
  | some e =>
    if check_stop_loss P.risk_control e price then
      sellAll P.cost_model P.slippage_model s price "STOP_LOSS"
    else if check_take_profit P.risk_control e price then
      sellAll P.cost_model P.slippage_model s price "TAKE_PROFIT"
    else s

/-- The trading part of one loop iteration, mirroring the `elif` chain of
`BacktestEngine.run`. -/
def tradeStep (P : EngineParams) (s : EngineState) (price : ℚ) (signal : Signal) :
    EngineState :=
  if check_max_drawdown P.risk_control s.equity_curve then
    if 0 < s.position then
      { sellAll P.cost_model P.slippage_model s price "RISK_EXIT" with
        force_exit_triggered := true }
    else { s with force_exit_triggered := true }
  else if signal = Signal.BUY ∧ s.position = 0 then
    buyStep P s price
  else if signal = Signal.EXIT ∧ 0 < s.position then
    sellAll P.cost_model P.slippage_model s price
      (exitTag P.risk_control s.entry_price price)
  else if 0 < s.position ∧ s.entry_price.isSome then
    holdCheck P s price
  else s

/-- One full loop iteration: trade, then append the bar's mark-to-market
equity `cash + position * price` (both the risk-exit branch and the shared
tail of the loop append exactly this value). -/
def stepBar (P : EngineParams) (s : EngineState) (price : ℚ) (signal : Signal) :
    EngineState :=
  let s' := tradeStep P s price signal
  { s' with equity_curve := s'.equity_curve ++ [s'.cash + s'.position * price] }

/-- The whole `for i, price in enumerate(self.prices)` loop. -/
def runLoop (P : EngineParams) (bars : List (ℚ × Signal)) (s : EngineState) :
    EngineState :=
  bars.foldl (fun st b => stepBar P st b.1 b.2) s

/-- `BacktestEngine.run`: run the loop, then force-liquidate any residual
position at the final bar's slippage-adjusted price, overwriting the last
equity-curve entry with the realized cash.  Note the source zeroes
`self.position` *before* building the FORCE_EXIT trade, so that trade's
`size` is `-0.0`. -/
def run (P : EngineParams) (prices : List ℚ) (signals : List Signal)
    (initial_cash : ℚ) : BacktestResult :=
  let s := runLoop P (prices.zip signals) (initState initial_cash)
  if 0 < s.position then
    let actual_price := P.slippage_model.apply_to_sell (prices.getLastD 0)
    let proceeds := s.position * actual_price
    let cost := P.cost_model.calculate_sell_cost actual_price s.position
    let newCash := proceeds - cost
    { initial_cash := initial_cash
      final_equity := newCash
      equity_curve := s.equity_curve.dropLast ++ [newCash]
      trades := s.trades ++ [⟨actual_price, -(0 : ℚ), newCash, 0, "FORCE_EXIT"⟩] }
  else
    { initial_cash := initial_cash
      final_equity := s.equity_curve.getLastD 0
      equity_curve := s.equity_curve
      trades := s.trades }

/-! ## Orders and fills (`trading/order.py`) -/

inductive OrderType
  | MARKET
  | LIMIT
  | STOP
  | STOP_LIMIT
deriving DecidableEq

inductive OrderSide
  | BUY
  | SELL
deriving DecidableEq

/-- Order status (the source's `PARTIAL_FILLED` is rendered `PART_FILLED`). -/
inductive OrderStatus
  | PENDING
  | SUBMITTED
  | PART_FILLED
  | FILLED
  | CANCELLED
  | REJECTED
deriving DecidableEq

/-- `Order` dataclass (timestamps and `stop_price`/`time_in_force` omitted:
no embedded operation reads them). -/
structure Order where
  order_id : String
  symbol : String
  order_type : OrderType
  side : OrderSide
  quantity : ℚ
  price : Option ℚ
  status : OrderStatus
  filled_quantity : ℚ
  avg_fill_price : ℚ
deriving DecidableEq

/-- `Fill` dataclass (`fill_id` and timestamp omitted: no embedded
operation reads them). -/
structure Fill where
  order_id : String
  symbol : String
  side : OrderSide
  quantity : ℚ
  price : ℚ
  commission : ℚ
deriving DecidableEq

/-! Association-list helpers standing for the Python `dict`s keyed by
symbol / order id (one binding per key). -/

/-- Dictionary lookup. -/
def alookup {α : Type} (ps : List (String × α)) (k : String) : Option α :=
  (ps.find? (fun kv => kv.1 == k)).map (fun kv => kv.2)

/-- Dictionary write (replace the binding if present, else append). -/
def aset {α : Type} : List (String × α) → String → α → List (String × α)
  | [], k, v => [(k, v)]
  | (k', v') :: rest, k, v =>
    if k' == k then (k, v) :: rest else (k', v') :: aset rest k v

/-- Dictionary delete. -/
def adel {α : Type} : List (String × α) → String → List (String × α)
  | [], _ => []
  | (k', v') :: rest, k =>
    if k' == k then rest else (k', v') :: adel rest k

/-! ## Account (`trading/account.py`) -/

/-- `Position` dataclass (update time omitted). -/
structure PositionRec where
  quantity : ℚ
  avg_cost : ℚ
  current_price : ℚ
deriving DecidableEq

/-- `Account`: cash, per-symbol positions, and the bookkeeping counters
touched by `update_position`. -/
structure Account where
  cash : ℚ
  positions : List (String × PositionRec)
  total_commission : ℚ
  num_trades : Nat
  num_wins : Nat
  num_losses : Nat
  trade_history : List Fill
deriving DecidableEq

/-- `Account.update_position(fill)`.  BUY: volume-weighted average cost and
`cash -= quantity*price + commission`.  SELL on an absent symbol returns
early (warning only).  SELL: `cash += quantity*price - commission`,
win/loss tally from realized PnL, and the position is deleted once its
quantity falls within `0.001` of zero. -/
def Account.update_position (a : Account) (f : Fill) : Account :=
  match f.side with
  | OrderSide.BUY =>
    let positions' :=
      match alookup a.positions f.symbol with
      | some pos =>
        let new_quantity := pos.quantity + f.quantity
        let new_avg_cost :=
          (pos.avg_cost * pos.quantity + f.price * f.quantity) / new_quantity
        aset a.positions f.symbol ⟨new_quantity, new_avg_cost, pos.current_price⟩
      | none => aset a.positions f.symbol ⟨f.quantity, f.price, f.price⟩
    { a with
      positions := positions'
      cash := a.cash - (f.quantity * f.price + f.commission)
      total_commission := a.total_commission + f.commission
      num_trades := a.num_trades + 1
      trade_history := a.trade_history ++ [f] }
  | OrderSide.SELL =>
    match alookup a.positions f.symbol with
    | none => a
    | some pos =>
      let new_quantity := pos.quantity - f.quantity
      let realized_pnl := (f.price - pos.avg_cost) * f.quantity - f.commission
      let positions' :=
        if new_quantity ≤ 1/1000 then adel a.positions f.symbol
        else aset a.positions f.symbol { pos with quantity := new_quantity }
      { a with
        positions := positions'
        cash := a.cash + (f.quantity * f.price - f.commission)
        num_wins := if 0 < realized_pnl then a.num_wins + 1 else a.num_wins
        num_losses := if 0 < realized_pnl then a.num_losses else a.num_losses + 1
        total_commission := a.total_commission + f.commission
        num_trades := a.num_trades + 1
        trade_history := a.trade_history ++ [f] }

/-! ## Order manager (`trading/order.py`, class `OrderManager`) -/

/-- `OrderManager`: the order dictionary and the fill log (in the source
orders are mutated through shared references; here every operation returns
the updated order / manager). -/
structure OrderManager where
  orders : List (String × Order)
  fills : List Fill
deriving DecidableEq

/-- `OrderManager.submit_order`: succeeds only from PENDING, moving the
order to SUBMITTED; on any other status it returns `false` and leaves the
order unchanged. -/
def submit_order (o : Order) : Bool × Order :=
  if o.status = OrderStatus.PENDING then
    (true, { o with status := OrderStatus.SUBMITTED })
  else (false, o)

/-- `OrderManager.cancel_order`: `false` on an unknown id or a
FILLED/CANCELLED order (no exception), otherwise mark CANCELLED. -/
def cancel_order (m : OrderManager) (order_id : String) : Bool × OrderManager :=
  match alookup m.orders order_id with
  | none => (false, m)
  | some o =>
    if o.status = OrderStatus.FILLED ∨ o.status = OrderStatus.CANCELLED then
      (false, m)
    else
      (true,
       { m with orders := aset m.orders order_id { o with status := OrderStatus.CANCELLED } })

/-- `OrderManager.on_fill`: accumulate `filled_quantity`, recompute
`avg_fill_price` as `(avg*(filled-q) + price*q)/filled` (the running
volume-weighted average), and flip to FILLED once
`filled_quantity >= quantity`, else PART_FILLED. -/
def on_fill (m : OrderManager) (f : Fill) : OrderManager :=
  match alookup m.orders f.order_id with
  | none => m
  | some o =>
    let filled := o.filled_quantity + f.quantity
    let total_value := o.avg_fill_price * (filled - f.quantity) + f.price * f.quantity
    let avg := total_value / filled
    let status :=
      if o.quantity ≤ filled then OrderStatus.FILLED else OrderStatus.PART_FILLED
    { m with
      orders := aset m.orders f.order_id
        { o with filled_quantity := filled, avg_fill_price := avg, status := status }
      fills := m.fills ++ [f] }

/-! ## Matching engine (`trading/simulator.py`) -/

/-- OHLCV bar delivered by the live feed (`data/live_feed.py`); timestamp
omitted. -/
structure BarData where
  symbol : String
  open_price : ℚ
  high : ℚ
  low : ℚ
  close : ℚ
  volume : ℚ
deriving DecidableEq

/-- `MatchingEngine.__init__` configuration. -/
structure MatchCfg where
  commission_rate : ℚ
  min_commission : ℚ
deriving DecidableEq

/-- `MatchingEngine._calculate_commission`:
`max(price*quantity*commission_rate, min_commission)`. -/
def calc_commission (cfg : MatchCfg) (quantity price : ℚ) : ℚ :=
  max (price * quantity * cfg.commission_rate) cfg.min_commission

/-- `MatchingEngine._try_match`.  The market-order fill price is drawn by
`random.uniform` in the source; here it is an explicit oracle `mkt`
standing for any sampled value (the limit-order path never consults it).
LIMIT fills exactly at the limit price when the bar's range crosses it;
STOP/STOP_LIMIT and a LIMIT order with no price return no fill. -/
def tryMatchOrder (cfg : MatchCfg) (mkt : Order → BarData → ℚ) (o : Order)
    (bar : BarData) : Option Fill :=
  match o.order_type with
  | OrderType.MARKET =>
    let fill_price := mkt o bar
    some ⟨o.order_id, o.symbol, o.side, o.quantity, fill_price,
          calc_commission cfg o.quantity fill_price⟩
  | OrderType.LIMIT =>
    match o.price with
    | none => none
    | some lp =>
      let can_fill : Bool :=
        match o.side with
        | OrderSide.BUY => decide (bar.low ≤ lp)
        | OrderSide.SELL => decide (lp ≤ bar.high)
      if can_fill then
        some ⟨o.order_id, o.symbol, o.side, o.quantity, lp,
              calc_commission cfg o.quantity lp⟩
      else none
  | _ => none

/-- `MatchingEngine.match_orders`: walk the pending pool in order; an order
that is SUBMITTED, on the bar's symbol, and matched by `_try_match`
produces its fill and leaves the pool; every other order stays. -/
def match_orders (cfg : MatchCfg) (mkt : Order → BarData → ℚ) :
    List Order → BarData → List Fill × List Order
  | [], _ => ([], [])
  | o :: rest, bar =>
    let r := match_orders cfg mkt rest bar
    if o.status = OrderStatus.SUBMITTED ∧ o.symbol = bar.symbol then
      match tryMatchOrder cfg mkt o bar with
      | some f => (f :: r.1, r.2)
      | none => (r.1, o :: r.2)
    else (r.1, o :: r.2)

/-! ## Derived predicates and concrete scenario data -/

/-- Risk configuration used to exhibit the position-cap slip: risk enabled
with `max_position_ratio = 0.5`. -/
def halfPosRiskControl : RiskControl := ⟨-1/5, 1/2, none, none, none, true⟩

/-- Engine configuration for the position-cap counterexample. -/
def halfPosParams : EngineParams := ⟨defaultCostModel, NoSlippage, halfPosRiskControl⟩

/-- Engine configuration for the drawdown-irreversibility counterexample:
no cost, no slippage, default risk control (drawdown limit −0.2). -/
def ddParams : EngineParams := ⟨NoCostModel, NoSlippage, defaultRiskControl⟩

/-- Account used for concrete witnesses. -/
def demoAccount : Account := ⟨100000, [], 0, 0, 0, 0, []⟩

/-- An order survives the matching pass when it is not
(SUBMITTED ∧ on the bar's symbol ∧ matched by `_try_match`). -/
def keepsOrder (cfg : MatchCfg) (mkt : Order → BarData → ℚ) (bar : BarData)
    (x : Order) : Bool :=
  !(decide (x.status = OrderStatus.SUBMITTED ∧ x.symbol = bar.symbol
    ∧ (tryMatchOrder cfg mkt x bar).isSome))

/-- The fill an order contributes to the matching pass, if any. -/
def eligibleFill (cfg : MatchCfg) (mkt : Order → BarData → ℚ) (bar : BarData)
    (x : Order) : Option Fill :=
  if x.status = OrderStatus.SUBMITTED ∧ x.symbol = bar.symbol
  then tryMatchOrder cfg mkt x bar else none

/-- Matching-engine configuration with the default commission schedule. -/
def demoMatchCfg : MatchCfg := ⟨3/10000, 5⟩

/-- A fixed market-price oracle for witnesses. -/
def demoMkt : Order → BarData → ℚ := fun _ _ => 0

/-- Bar used by the matching witness. -/
def demoBar : BarData := ⟨"SYM", 100, 101, 98, 100, 10000⟩

/-- Order, manager and fill used for the C7 witness: one FILLED order
`"a"` and one SUBMITTED order `"b"` half-filled by a 3-unit fill. -/
def pendingDemoOrder : Order :=
  ⟨"p", "SYM", OrderType.MARKET, OrderSide.BUY, 10, none, OrderStatus.PENDING, 0, 0⟩

def filledDemoOrder : Order :=
  ⟨"a", "SYM", OrderType.MARKET, OrderSide.BUY, 10, none, OrderStatus.FILLED, 10, 5⟩

def submittedDemoOrder : Order :=
  ⟨"b", "SYM", OrderType.LIMIT, OrderSide.SELL, 8, some 7, OrderStatus.SUBMITTED, 0, 0⟩

def demoManager : OrderManager :=
  ⟨[("a", filledDemoOrder), ("b", submittedDemoOrder)], []⟩

def demoFill : Fill := ⟨"b", "SYM", OrderSide.SELL, 3, 7, 1⟩

/-- The implicit accounting invariant of the engine loop: a strictly
positive position implies the cash balance is exactly zero. -/
def cashInvariant (s : EngineState) : Prop :=
  0 < s.position → s.cash = 0

/-- Parameters for the residual-liquidation witnesses: default costs, no
slippage, risk disabled. -/
def noRiskParams : EngineParams := ⟨defaultCostModel, NoSlippage, NoRiskControl⟩

/-- Loop state after the two bars `[100, 110]` with signals `[BUY, HOLD]`
under `noRiskParams`: 999.7 shares held, cash 0. -/
def twoBarLoopState : EngineState :=
  ⟨0, 9997/10, some 100, false, [99970, 109967],
   [⟨100, 9997/10, 0, 9997/10, "BUY"⟩]⟩

/-! ## Helper lemmas -/

/-- Writing a key and reading it back yields the written value. -/
theorem alookup_aset {α : Type} (ps : List (String × α)) (k : String) (v : α) :
    alookup (aset ps k v) k = some v := by
  induction ps with
  | nil => simp [alookup, aset]
  | cons kv rest ih =>
    rcases kv with ⟨k', v'⟩
    by_cases h : k' == k
    · simp [aset, h, alookup]
    · simp only [aset, h, if_false]
      simpa [alookup, List.find?, h] using ih

/-! ## Claim theorems -/


/-- C1: with risk enabled and `max_position_ratio = 1/2`, cash 100000 and
price 100, `RiskMonitor.get_position_size` caps the position at 500
shares, but the BUY branch of `BacktestEngine.run` opens 999.85 shares:
`max_shares` is computed and then used only for the commission, never to
cap `actual_shares = (cash - cost)/actual_price`. -/
theorem buy_branch_ignores_position_cap :
    (run halfPosParams [100] [Signal.BUY] 100000).trades.head?
      = some ⟨100, 19997/20, 0, 19997/20, "BUY"⟩ ∧
    get_position_size halfPosRiskControl 100000 100 1 = 500 ∧
    (500 : ℚ) < 19997/20 := by
  have e1 : stepBar halfPosParams (initState 100000) 100 Signal.BUY
      = ⟨0, 19997/20, some 100, false, [99985],
         [⟨100, 19997/20, 0, 19997/20, "BUY"⟩]⟩ := by
    norm_num +decide [stepBar, tradeStep, buyStep, sellAll, holdCheck, exitTag,
      check_max_drawdown, check_stop_loss, check_take_profit, get_position_size,
      currentDrawdown, initState, defaultCostModel, NoSlippage, halfPosRiskControl,
      halfPosParams, CostModel.calculate_buy_cost, CostModel.calculate_sell_cost]
  have hloop : runLoop halfPosParams ([(100 : ℚ)].zip [Signal.BUY]) (initState 100000)
      = ⟨0, 19997/20, some 100, false, [99985],
         [⟨100, 19997/20, 0, 19997/20, "BUY"⟩]⟩ := by
    simp only [runLoop, List.zip, List.zipWith, List.foldl]
    rw [e1]
  refine ⟨?_, ?_, ?_⟩
  · simp only [run, hloop]
    norm_num [halfPosParams, NoSlippage, defaultCostModel, CostModel.calculate_sell_cost]
  · norm_num [get_position_size, halfPosRiskControl]
  · norm_num


/-- C2: the drawdown force-exit is not irreversible.  With the default
risk control (limit −0.2), prices `[100,100,50,200,100]` and signals
`[BUY,HOLD,HOLD,HOLD,BUY]`, the run force-liquidates at the 200 bar
(RISK_EXIT) — but the liquidation itself lifts equity back above the
drawdown limit, the next bar's `check_max_drawdown` returns false (the
`force_exit_triggered` flag is never consulted), and the engine opens a
fresh position on the final BUY signal. -/
theorem risk_exit_not_irreversible :
    ((run ddParams [100, 100, 50, 200, 100]
        [Signal.BUY, Signal.HOLD, Signal.HOLD, Signal.HOLD, Signal.BUY]
        100000).trades.map Trade.type)
      = ["BUY", "RISK_EXIT", "BUY", "FORCE_EXIT"] := by
  have e1 : stepBar ddParams (initState 100000) 100 Signal.BUY
      = ⟨0, 1000, some 100, false, [100000], [⟨100, 1000, 0, 1000, "BUY"⟩]⟩ := by
    norm_num +decide [stepBar, tradeStep, buyStep, sellAll, holdCheck, exitTag,
      check_max_drawdown, check_stop_loss, check_take_profit, get_position_size,
      currentDrawdown, initState, NoCostModel, NoSlippage, defaultRiskControl, ddParams,
      CostModel.calculate_buy_cost, CostModel.calculate_sell_cost]
  have e2 : stepBar ddParams ⟨0, 1000, some 100, false, [100000],
        [⟨100, 1000, 0, 1000, "BUY"⟩]⟩ 100 Signal.HOLD
      = ⟨0, 1000, some 100, false, [100000, 100000], [⟨100, 1000, 0, 1000, "BUY"⟩]⟩ := by
    norm_num +decide [stepBar, tradeStep, buyStep, sellAll, holdCheck, exitTag,
      check_max_drawdown, check_stop_loss, check_take_profit, get_position_size,
      currentDrawdown, NoCostModel, NoSlippage, defaultRiskControl, ddParams,
      CostModel.calculate_buy_cost, CostModel.calculate_sell_cost]
  have e3 : stepBar ddParams ⟨0, 1000, some 100, false, [100000, 100000],
        [⟨100, 1000, 0, 1000, "BUY"⟩]⟩ 50 Signal.HOLD
      = ⟨0, 1000, some 100, false, [100000, 100000, 50000],
         [⟨100, 1000, 0, 1000, "BUY"⟩]⟩ := by
    norm_num +decide [stepBar, tradeStep, buyStep, sellAll, holdCheck, exitTag,
      check_max_drawdown, check_stop_loss, check_take_profit, get_position_size,
      currentDrawdown, NoCostModel, NoSlippage, defaultRiskControl, ddParams,
      CostModel.calculate_buy_cost, CostModel.calculate_sell_cost]
  have e4 : stepBar ddParams ⟨0, 1000, some 100, false, [100000, 100000, 50000],
        [⟨100, 1000, 0, 1000, "BUY"⟩]⟩ 200 Signal.HOLD
      = ⟨200000, 0, none, true, [100000, 100000, 50000, 200000],
         [⟨100, 1000, 0, 1000, "BUY"⟩, ⟨200, -1000, 200000, 0, "RISK_EXIT"⟩]⟩ := by
    norm_num +decide [stepBar, tradeStep, buyStep, sellAll, holdCheck, exitTag,
      check_max_drawdown, check_stop_loss, check_take_profit, get_position_size,
      currentDrawdown, NoCostModel, NoSlippage, defaultRiskControl, ddParams,
      CostModel.calculate_buy_cost, CostModel.calculate_sell_cost]
  have e5 : stepBar ddParams ⟨200000, 0, none, true, [100000, 100000, 50000, 200000],
        [⟨100, 1000, 0, 1000, "BUY"⟩, ⟨200, -1000, 200000, 0, "RISK_EXIT"⟩]⟩
        100 Signal.BUY
      = ⟨0, 2000, some 100, true, [100000, 100000, 50000, 200000, 200000],
         [⟨100, 1000, 0, 1000, "BUY"⟩, ⟨200, -1000, 200000, 0, "RISK_EXIT"⟩,
          ⟨100, 2000, 0, 2000, "BUY"⟩]⟩ := by
    norm_num +decide [stepBar, tradeStep, buyStep, sellAll, holdCheck, exitTag,
      check_max_drawdown, check_stop_loss, check_take_profit, get_position_size,
      currentDrawdown, NoCostModel, NoSlippage, defaultRiskControl, ddParams,
      CostModel.calculate_buy_cost, CostModel.calculate_sell_cost]
  have hloop : runLoop ddParams ([100, 100, 50, 200, 100].zip
        [Signal.BUY, Signal.HOLD, Signal.HOLD, Signal.HOLD, Signal.BUY])
        (initState 100000)
      = ⟨0, 2000, some 100, true, [100000, 100000, 50000, 200000, 200000],
         [⟨100, 1000, 0, 1000, "BUY"⟩, ⟨200, -1000, 200000, 0, "RISK_EXIT"⟩,
          ⟨100, 2000, 0, 2000, "BUY"⟩]⟩ := by
    simp only [runLoop, List.zip, List.zipWith, List.foldl]
    rw [e1, e2, e3, e4, e5]
  simp only [run, hloop]
  norm_num [NoSlippage, NoCostModel, CostModel.calculate_sell_cost, ddParams]

/-- C4: `get_total_cost` returns the commission (floored at the minimum)
on BUY, adds the stamp duty on SELL, errors exactly on any other side
string, and still charges exactly `min_commission` at size 0 on both
sides. -/
theorem get_total_cost_spec (m : CostModel) (p s : ℚ) (side : String)
    (hm : 0 ≤ m.min_commission) :
    (side = "BUY" →
      m.get_total_cost p s side =
        Except.ok (max (p * s * m.commission_rate) m.min_commission)) ∧
    (side = "SELL" →
      m.get_total_cost p s side =
        Except.ok (max (p * s * m.commission_rate) m.min_commission
          + p * s * m.stamp_duty_rate)) ∧
    (isError (m.get_total_cost p s side) = true ↔
      ¬(side = "BUY") ∧ ¬(side = "SELL")) ∧
    m.get_total_cost p 0 "BUY" = Except.ok m.min_commission ∧
    m.get_total_cost p 0 "SELL" = Except.ok m.min_commission := by
  refine ⟨?_, ?_, ?_, ?_, ?_⟩
  · intro h
    simp [CostModel.get_total_cost, h, CostModel.calculate_buy_cost]
  · intro h
    subst h
    simp [CostModel.get_total_cost, CostModel.calculate_sell_cost]
  · by_cases hb : side = "BUY"
    · simp [CostModel.get_total_cost, hb, isError]
    · by_cases hs : side = "SELL"
      · simp [CostModel.get_total_cost, hb, hs, isError]
      · simp [CostModel.get_total_cost, hb, hs, isError]
  · simp [CostModel.get_total_cost, CostModel.calculate_buy_cost,
      max_eq_right hm]
  · simp [CostModel.get_total_cost, CostModel.calculate_sell_cost,
      max_eq_right hm]

/-- Witness for C4 at `defaultCostModel`, `p = 7`, `s = 3`, side `HOLD`. -/
theorem get_total_cost_spec_witness :
    (0 : ℚ) ≤ defaultCostModel.min_commission ∧
    (isError (defaultCostModel.get_total_cost 7 3 "HOLD") = true ↔
      ¬("HOLD" = "BUY") ∧ ¬("HOLD" = "SELL")) :=
  ⟨by decide, (get_total_cost_spec defaultCostModel 7 3 "HOLD" (by decide)).2.2.1⟩

/-- C5 counterexample: at price 100 and size 1 (both positive) the high
and default cost models charge the identical 5-unit minimum commission on
a buy, so the strict chain of the claim fails. -/
theorem cost_chain_counterexample :
    (0 : ℚ) < 100 ∧ (0 : ℚ) < 1 ∧
    HighCostModel.calculate_buy_cost 100 1 = 5 ∧
    defaultCostModel.calculate_buy_cost 100 1 = 5 ∧
    ¬(defaultCostModel.calculate_buy_cost 100 1
        < HighCostModel.calculate_buy_cost 100 1) := by
  norm_num [CostModel.calculate_buy_cost, HighCostModel, defaultCostModel]

/-- C5 amended: the strict ordering
`NoCost < LowCost < default < HighCost` of buy costs holds whenever the
notional `p*s` exceeds `50000/3` (so the default model's proportional
commission exceeds its 5-unit minimum); `NoCostModel`'s cost is exactly 0.
Below that notional the fee-charging models can tie at the minimum
commission. -/
theorem cost_chain_amended (p s : ℚ) (h : 50000/3 < p * s) :
    NoCostModel.calculate_buy_cost p s = 0 ∧
    NoCostModel.calculate_buy_cost p s < LowCostModel.calculate_buy_cost p s ∧
    LowCostModel.calculate_buy_cost p s < defaultCostModel.calculate_buy_cost p s ∧
    defaultCostModel.calculate_buy_cost p s < HighCostModel.calculate_buy_cost p s := by
  have hpv : (0 : ℚ) < p * s := by nlinarith
  have hdef : defaultCostModel.calculate_buy_cost p s = p * s * (3/10000) := by
    unfold CostModel.calculate_buy_cost defaultCostModel
    exact max_eq_left (by nlinarith)
  refine ⟨?_, ?_, ?_, ?_⟩
  · unfold CostModel.calculate_buy_cost NoCostModel
    simp
  · unfold CostModel.calculate_buy_cost NoCostModel LowCostModel
    simp only [mul_zero, max_self]
    exact lt_of_lt_of_le (by norm_num) (le_max_right _ _)
  · rw [hdef]
    unfold CostModel.calculate_buy_cost LowCostModel
    exact max_lt (by nlinarith) (by nlinarith)
  · rw [hdef]
    unfold CostModel.calculate_buy_cost HighCostModel
    exact lt_of_lt_of_le (by nlinarith) (le_max_left _ _)

/-- Witness for the amended C5 at `p = 100`, `s = 1000`. -/
theorem cost_chain_amended_witness :
    (50000/3 : ℚ) < 100 * 1000 ∧
    (NoCostModel.calculate_buy_cost 100 1000 = 0 ∧
     NoCostModel.calculate_buy_cost 100 1000 < LowCostModel.calculate_buy_cost 100 1000 ∧
     LowCostModel.calculate_buy_cost 100 1000 < defaultCostModel.calculate_buy_cost 100 1000 ∧
     defaultCostModel.calculate_buy_cost 100 1000 < HighCostModel.calculate_buy_cost 100 1000) :=
  ⟨by norm_num, cost_chain_amended 100 1000 (by norm_num)⟩


/-- C6: replaying a BUY fill and then a SELL fill of the same quantity and
price with zero commission returns `Account.cash` exactly to its value
before the two fills. -/
theorem account_buy_sell_roundtrip (a : Account) (sym oid1 oid2 : String)
    (q p : ℚ) (_hq : 0 < q) :
    ((a.update_position ⟨oid1, sym, OrderSide.BUY, q, p, 0⟩).update_position
        ⟨oid2, sym, OrderSide.SELL, q, p, 0⟩).cash = a.cash := by
  unfold Account.update_position
  cases hl : alookup a.positions sym with
  | none =>
    simp [hl, alookup_aset]
  | some pos =>
    simp [hl, alookup_aset]

/-- Witness for C6: buy then sell 10 units at price 5. -/
theorem account_buy_sell_roundtrip_witness :
    (0 : ℚ) < 10 ∧
    ((demoAccount.update_position ⟨"o1", "SYM", OrderSide.BUY, 10, 5, 0⟩).update_position
        ⟨"o2", "SYM", OrderSide.SELL, 10, 5, 0⟩).cash = demoAccount.cash :=
  ⟨by decide, account_buy_sell_roundtrip demoAccount "SYM" "o1" "o2" 10 5 (by decide)⟩


/-- The pending pool after `match_orders`: exactly the orders that were
not (SUBMITTED ∧ on-symbol ∧ matched). -/
theorem match_orders_pool (cfg : MatchCfg) (mkt : Order → BarData → ℚ)
    (bar : BarData) :
    ∀ pending : List Order,
      (match_orders cfg mkt pending bar).2
        = pending.filter (keepsOrder cfg mkt bar) := by
  intro pending
  induction pending with
  | nil => simp [match_orders]
  | cons o rest ih =>
    rw [List.filter_cons]
    by_cases hc : o.status = OrderStatus.SUBMITTED ∧ o.symbol = bar.symbol
    · cases hm : tryMatchOrder cfg mkt o bar with
      | none =>
        have hb : keepsOrder cfg mkt bar o = true := by simp [keepsOrder, hc, hm]
        simp [match_orders, hc, hm, ih, hb]
      | some f =>
        have hb : keepsOrder cfg mkt bar o = false := by simp [keepsOrder, hc, hm]
        simp [match_orders, hc, hm, ih, hb]
    · have hb : keepsOrder cfg mkt bar o = true := by
        have h : ¬(o.status = OrderStatus.SUBMITTED ∧ o.symbol = bar.symbol
            ∧ (tryMatchOrder cfg mkt o bar).isSome) := fun h => hc ⟨h.1, h.2.1⟩
        simp [keepsOrder, h]
      simp [match_orders, hc, ih, hb]

/-- The fills produced by `match_orders`: one fill per eligible matched
order, in pool order. -/
theorem match_orders_fills (cfg : MatchCfg) (mkt : Order → BarData → ℚ)
    (bar : BarData) :
    ∀ pending : List Order,
      (match_orders cfg mkt pending bar).1
        = pending.filterMap (eligibleFill cfg mkt bar) := by
  intro pending
  induction pending with
  | nil => simp [match_orders]
  | cons o rest ih =>
    rw [List.filterMap_cons]
    by_cases hc : o.status = OrderStatus.SUBMITTED ∧ o.symbol = bar.symbol
    · cases hm : tryMatchOrder cfg mkt o bar with
      | none =>
        have hb : eligibleFill cfg mkt bar o = none := by simp [eligibleFill, hc, hm]
        simp [match_orders, hc, hm, ih, hb]
      | some f =>
        have hb : eligibleFill cfg mkt bar o = some f := by simp [eligibleFill, hc, hm]
        simp [match_orders, hc, hm, ih, hb]
    · have hb : eligibleFill cfg mkt bar o = none := by simp [eligibleFill, hc]
      simp [match_orders, hc, ih, hb]

/-- C8: for a SUBMITTED LIMIT order on the incoming bar's symbol with
limit price `lp`: a BUY matches iff `bar.low ≤ lp`, a SELL matches iff
`bar.high ≥ lp`, any produced fill is priced exactly at `lp`; and
`match_orders` removes exactly the matched orders from the pending pool
while emitting their fills. -/
theorem limit_order_matching (cfg : MatchCfg) (mkt : Order → BarData → ℚ)
    (pending : List Order) (bar : BarData) (o : Order) (lp : ℚ)
    (_hst : o.status = OrderStatus.SUBMITTED) (_hsym : o.symbol = bar.symbol)
    (hty : o.order_type = OrderType.LIMIT) (hp : o.price = some lp) :
    (o.side = OrderSide.BUY →
      ((tryMatchOrder cfg mkt o bar).isSome ↔ bar.low ≤ lp)) ∧
    (o.side = OrderSide.SELL →
      ((tryMatchOrder cfg mkt o bar).isSome ↔ lp ≤ bar.high)) ∧
    (∀ f : Fill, tryMatchOrder cfg mkt o bar = some f → f.price = lp) ∧
    (match_orders cfg mkt pending bar).2
      = pending.filter (keepsOrder cfg mkt bar) ∧
    (match_orders cfg mkt pending bar).1
      = pending.filterMap (eligibleFill cfg mkt bar) := by
  refine ⟨?_, ?_, ?_, match_orders_pool cfg mkt bar pending,
    match_orders_fills cfg mkt bar pending⟩
  · intro hside
    by_cases hle : bar.low ≤ lp <;>
      simp [tryMatchOrder, hty, hp, hside, hle]
  · intro hside
    by_cases hle : lp ≤ bar.high <;>
      simp [tryMatchOrder, hty, hp, hside, hle]
  · intro f hf
    cases hside : o.side with
    | BUY =>
      by_cases hle : bar.low ≤ lp
      · simp [tryMatchOrder, hty, hp, hside, hle] at hf
        simp [← hf]
      · simp [tryMatchOrder, hty, hp, hside, hle] at hf
    | SELL =>
      by_cases hle : lp ≤ bar.high
      · simp [tryMatchOrder, hty, hp, hside, hle] at hf
        simp [← hf]
      · simp [tryMatchOrder, hty, hp, hside, hle] at hf


/-- Witness for C8: the SUBMITTED LIMIT SELL at 7 matches the bar with
high 101 (`7 ≤ 101`), and the matching pass filters the pool exactly as
stated. -/
theorem limit_order_matching_witness :
    submittedDemoOrder.status = OrderStatus.SUBMITTED ∧
    ((tryMatchOrder demoMatchCfg demoMkt submittedDemoOrder demoBar).isSome ↔
      (7 : ℚ) ≤ demoBar.high) ∧
    (match_orders demoMatchCfg demoMkt [submittedDemoOrder, filledDemoOrder]
        demoBar).2
      = [submittedDemoOrder, filledDemoOrder].filter
          (keepsOrder demoMatchCfg demoMkt demoBar) :=
  ⟨rfl,
   (limit_order_matching demoMatchCfg demoMkt
      [submittedDemoOrder, filledDemoOrder] demoBar submittedDemoOrder 7
      rfl rfl rfl rfl).2.1 rfl,
   (limit_order_matching demoMatchCfg demoMkt
      [submittedDemoOrder, filledDemoOrder] demoBar submittedDemoOrder 7
      rfl rfl rfl rfl).2.2.2.1⟩

/-- C7: the per-order state machine of `OrderManager`.  `submit_order`
succeeds (returning `true` and moving to SUBMITTED) iff the order is
PENDING, and leaves the order unchanged when it fails; `cancel_order` on a
FILLED or CANCELLED order returns `false` without changing the manager;
`on_fill` adds the fill quantity, recomputes `avg_fill_price` as the
running volume-weighted average, and sets FILLED exactly when
`filled_quantity ≥ quantity`, else PART_FILLED. -/
theorem order_manager_fsm (o : Order) (m : OrderManager) (oid : String)
    (o' o2 : Order) (f : Fill) :
    (((submit_order o).1 = true ↔ o.status = OrderStatus.PENDING) ∧
     (o.status = OrderStatus.PENDING →
       (submit_order o).2.status = OrderStatus.SUBMITTED) ∧
     ((submit_order o).1 = false → (submit_order o).2 = o)) ∧
    (alookup m.orders oid = some o' →
      (o'.status = OrderStatus.FILLED ∨ o'.status = OrderStatus.CANCELLED) →
      cancel_order m oid = (false, m)) ∧
    (alookup m.orders f.order_id = some o2 →
      alookup (on_fill m f).orders f.order_id = some
        { o2 with
          filled_quantity := o2.filled_quantity + f.quantity
          avg_fill_price :=
            (o2.avg_fill_price * o2.filled_quantity + f.price * f.quantity)
              / (o2.filled_quantity + f.quantity)
          status := if o2.quantity ≤ o2.filled_quantity + f.quantity
            then OrderStatus.FILLED else OrderStatus.PART_FILLED } ∧
      (on_fill m f).fills = m.fills ++ [f]) := by
  refine ⟨⟨?_, ?_, ?_⟩, ?_, ?_⟩
  · by_cases h : o.status = OrderStatus.PENDING <;> simp [submit_order, h]
  · intro h
    simp [submit_order, h]
  · intro h
    by_cases hp : o.status = OrderStatus.PENDING
    · simp [submit_order, hp] at h
    · simp [submit_order, hp]
  · intro h1 h2
    simp [cancel_order, h1, h2]
  · intro h
    have harith : o2.avg_fill_price * (o2.filled_quantity + f.quantity - f.quantity)
        + f.price * f.quantity
        = o2.avg_fill_price * o2.filled_quantity + f.price * f.quantity := by
      ring
    simp [on_fill, h, alookup_aset, harith]


/-- Witness for C7: the state machine theorem applied to the demo manager,
with the PENDING-submit, FILLED-cancel and partial-fill hypotheses
discharged concretely. -/
theorem order_manager_fsm_witness :
    ((submit_order pendingDemoOrder).1 = true ↔
      pendingDemoOrder.status = OrderStatus.PENDING) ∧
    cancel_order demoManager "a" = (false, demoManager) ∧
    (alookup (on_fill demoManager demoFill).orders "b" = some
      { submittedDemoOrder with
        filled_quantity := submittedDemoOrder.filled_quantity + demoFill.quantity
        avg_fill_price :=
          (submittedDemoOrder.avg_fill_price * submittedDemoOrder.filled_quantity
            + demoFill.price * demoFill.quantity)
            / (submittedDemoOrder.filled_quantity + demoFill.quantity)
        status := if submittedDemoOrder.quantity ≤
            submittedDemoOrder.filled_quantity + demoFill.quantity
          then OrderStatus.FILLED else OrderStatus.PART_FILLED } ∧
     (on_fill demoManager demoFill).fills = demoManager.fills ++ [demoFill]) :=
  ⟨(order_manager_fsm pendingDemoOrder demoManager "a" filledDemoOrder
      submittedDemoOrder demoFill).1.1,
   (order_manager_fsm pendingDemoOrder demoManager "a" filledDemoOrder
      submittedDemoOrder demoFill).2.1 (by simp [demoManager, alookup])
      (Or.inl (by simp [filledDemoOrder])),
   (order_manager_fsm pendingDemoOrder demoManager "a" filledDemoOrder
      submittedDemoOrder demoFill).2.2 (by simp [demoManager, alookup, demoFill])⟩


/-- One loop iteration preserves the cash invariant: a BUY sets `cash = 0`,
every sell branch zeroes the position, and all other branches leave cash
and position untouched. -/
theorem stepBar_cashInvariant (P : EngineParams) (s : EngineState) (price : ℚ)
    (sig : Signal) (h : cashInvariant s) :
    cashInvariant (stepBar P s price sig) := by
  unfold cashInvariant at h ⊢
  unfold stepBar tradeStep
  split_ifs with h1 h2 h3 h4 h5
  · simp [sellAll]
  · simpa using h
  · simp [buyStep]
  · simp [sellAll]
  · unfold holdCheck
    cases he : s.entry_price with
    | none => simpa using h
    | some e =>
      by_cases hsl : check_stop_loss P.risk_control e price
      · simp [hsl, sellAll]
      · by_cases htp : check_take_profit P.risk_control e price
        · simp [hsl, htp, sellAll]
        · simpa [hsl, htp] using h
  · simpa using h

/-- The invariant propagates through any run of the loop. -/
theorem runLoop_cashInvariant (P : EngineParams) :
    ∀ (bars : List (ℚ × Signal)) (s : EngineState),
      cashInvariant s → cashInvariant (runLoop P bars s) := by
  intro bars
  induction bars with
  | nil => intro s h; simpa [runLoop] using h
  | cons b rest ih =>
    intro s h
    have hstep := stepBar_cashInvariant P s b.1 b.2 h
    simpa [runLoop] using ih (stepBar P s b.1 b.2) hstep

/-- C9: at every point of `BacktestEngine.run`'s loop (i.e. after any
prefix of the bars), a strictly positive position forces `cash = 0`: a
BUY always invests the entire cash balance, which is why the sell
branches may overwrite cash with `proceeds - cost` without losing
funds. -/
theorem position_implies_zero_cash (P : EngineParams) (initial_cash : ℚ)
    (prices : List ℚ) (signals : List Signal) (k : ℕ)
    (h : 0 < (runLoop P ((prices.zip signals).take k)
        (initState initial_cash)).position) :
    (runLoop P ((prices.zip signals).take k) (initState initial_cash)).cash = 0 := by
  refine runLoop_cashInvariant P ((prices.zip signals).take k)
    (initState initial_cash) ?_ h
  intro h0
  simp [initState] at h0

/-- Witness for C9: after the first bar of a BUY run the position is 1000
shares and the cash balance is exactly zero. -/
theorem position_implies_zero_cash_witness :
    0 < (runLoop ddParams (([100].zip [Signal.BUY]).take 1)
        (initState 100000)).position ∧
    (runLoop ddParams (([100].zip [Signal.BUY]).take 1)
        (initState 100000)).cash = 0 := by
  have e1 : stepBar ddParams (initState 100000) 100 Signal.BUY
      = ⟨0, 1000, some 100, false, [100000], [⟨100, 1000, 0, 1000, "BUY"⟩]⟩ := by
    norm_num +decide [stepBar, tradeStep, buyStep, sellAll, holdCheck, exitTag,
      check_max_drawdown, check_stop_loss, check_take_profit, get_position_size,
      currentDrawdown, initState, NoCostModel, NoSlippage, defaultRiskControl, ddParams,
      CostModel.calculate_buy_cost, CostModel.calculate_sell_cost]
  have hpos : 0 < (runLoop ddParams (([100].zip [Signal.BUY]).take 1)
      (initState 100000)).position := by
    simp only [List.zip, List.zipWith, List.take, runLoop, List.foldl, e1]
    norm_num
  exact ⟨hpos, position_implies_zero_cash ddParams 100000 [100] [Signal.BUY] 1 hpos⟩

/-- C3: whenever the loop ends with an open position, `run` appends a
FORCE_EXIT trade at the final bar's slippage-adjusted sell price, realizes
`cash = proceeds - sell cost`, and overwrites the last equity-curve entry
(and `final_equity`) with that cash, so the returned curve ends exactly at
realized cash. -/
theorem final_force_liquidation (P : EngineParams) (prices : List ℚ)
    (signals : List Signal) (initial_cash actual_price newCash : ℚ)
    (s : EngineState)
    (hs : s = runLoop P (prices.zip signals) (initState initial_cash))
    (hpos : 0 < s.position)
    (hap : actual_price = P.slippage_model.apply_to_sell (prices.getLastD 0))
    (hc : newCash = s.position * actual_price
        - P.cost_model.calculate_sell_cost actual_price s.position) :
    (run P prices signals initial_cash).trades
      = s.trades ++ [⟨actual_price, 0, newCash, 0, "FORCE_EXIT"⟩] ∧
    (run P prices signals initial_cash).equity_curve
      = s.equity_curve.dropLast ++ [newCash] ∧
    (run P prices signals initial_cash).final_equity = newCash := by
  subst hs
  subst hap
  subst hc
  simp only [run]
  rw [if_pos hpos]
  refine ⟨?_, rfl, rfl⟩
  norm_num



/-- The concrete two-bar run reaches `twoBarLoopState`. -/
theorem twoBarLoopState_eq :
    twoBarLoopState
      = runLoop noRiskParams ([100, 110].zip [Signal.BUY, Signal.HOLD])
          (initState 100000) := by
  have e1 : stepBar noRiskParams (initState 100000) 100 Signal.BUY
      = ⟨0, 9997/10, some 100, false, [99970],
         [⟨100, 9997/10, 0, 9997/10, "BUY"⟩]⟩ := by
    norm_num +decide [stepBar, tradeStep, buyStep, sellAll, holdCheck, exitTag,
      check_max_drawdown, check_stop_loss, check_take_profit, get_position_size,
      currentDrawdown, initState, defaultCostModel, NoSlippage, NoRiskControl,
      noRiskParams, CostModel.calculate_buy_cost, CostModel.calculate_sell_cost]
  have e2 : stepBar noRiskParams ⟨0, 9997/10, some 100, false, [99970],
        [⟨100, 9997/10, 0, 9997/10, "BUY"⟩]⟩ 110 Signal.HOLD
      = ⟨0, 9997/10, some 100, false, [99970, 109967],
         [⟨100, 9997/10, 0, 9997/10, "BUY"⟩]⟩ := by
    norm_num +decide [stepBar, tradeStep, buyStep, sellAll, holdCheck, exitTag,
      check_max_drawdown, check_stop_loss, check_take_profit, get_position_size,
      currentDrawdown, defaultCostModel, NoSlippage, NoRiskControl,
      noRiskParams, CostModel.calculate_buy_cost, CostModel.calculate_sell_cost]
  simp only [runLoop, List.zip, List.zipWith, List.foldl]
  rw [e1, e2]
  simp [twoBarLoopState]

/-- Witness for C3: the two-bar buy-and-hold run ends with an open
position of 999.7 shares, and the returned result carries the FORCE_EXIT
trade, the overwritten curve and `final_equity = 109824.0429`. -/
theorem final_force_liquidation_witness :
    0 < twoBarLoopState.position ∧
    ((run noRiskParams [100, 110] [Signal.BUY, Signal.HOLD] 100000).trades
       = twoBarLoopState.trades ++ [⟨110, 0, 1098240429/10000, 0, "FORCE_EXIT"⟩] ∧
     (run noRiskParams [100, 110] [Signal.BUY, Signal.HOLD] 100000).equity_curve
       = twoBarLoopState.equity_curve.dropLast ++ [1098240429/10000] ∧
     (run noRiskParams [100, 110] [Signal.BUY, Signal.HOLD] 100000).final_equity
       = 1098240429/10000) :=
  ⟨by norm_num [twoBarLoopState],
   final_force_liquidation noRiskParams [100, 110] [Signal.BUY, Signal.HOLD]
     100000 110 (1098240429/10000) twoBarLoopState twoBarLoopState_eq
     (by norm_num [twoBarLoopState])
     (by norm_num [noRiskParams, NoSlippage])
     (by norm_num [twoBarLoopState, CostModel.calculate_sell_cost, defaultCostModel,
        noRiskParams])⟩

/-- C10: because `run` zeroes `self.position` before building the final
trade, the FORCE_EXIT trade records `size = -0.0` (which is numerically
0), not the negative of the liquidated share quantity — unlike the in-loop
sell trades, which record `size = -position` before zeroing. -/
theorem force_exit_trade_size (P : EngineParams) (prices : List ℚ)
    (signals : List Signal) (initial_cash : ℚ) (s : EngineState)
    (hs : s = runLoop P (prices.zip signals) (initState initial_cash))
    (hpos : 0 < s.position) :
    ((run P prices signals initial_cash).trades.getLast?).map Trade.type
      = some "FORCE_EXIT" ∧
    ((run P prices signals initial_cash).trades.getLast?).map Trade.size
      = some 0 ∧
    ((run P prices signals initial_cash).trades.getLast?).map Trade.size
      ≠ some (-s.position) := by
  subst hs
  simp only [run]
  rw [if_pos hpos]
  refine ⟨by simp, by simp, ?_⟩
  have hne : (runLoop P (prices.zip signals) (initState initial_cash)).position ≠ 0 :=
    ne_of_gt hpos
  simp only [List.getLast?_append, List.getLast?_singleton, Option.or,
    Option.map_some, ne_eq, Option.some.injEq, neg_zero]
  intro hc0
  simp at hc0
  exact hne (by linarith)

/-- Witness for C10: in the two-bar run the last trade is the FORCE_EXIT
with `size = 0`, although 999.7 shares were liquidated. -/
theorem force_exit_trade_size_witness :
    0 < twoBarLoopState.position ∧
    (((run noRiskParams [100, 110] [Signal.BUY, Signal.HOLD]
          100000).trades.getLast?).map Trade.type = some "FORCE_EXIT" ∧
     ((run noRiskParams [100, 110] [Signal.BUY, Signal.HOLD]
          100000).trades.getLast?).map Trade.size = some 0 ∧
     ((run noRiskParams [100, 110] [Signal.BUY, Signal.HOLD]
          100000).trades.getLast?).map Trade.size
       ≠ some (-twoBarLoopState.position)) :=
  ⟨by norm_num [twoBarLoopState],
   force_exit_trade_size noRiskParams [100, 110] [Signal.BUY, Signal.HOLD]
     100000 twoBarLoopState twoBarLoopState_eq (by norm_num [twoBarLoopState])⟩

end QS
